import Mathlib

/-
Verification development for the homework-status Telegram bot
(src/homework.py).  The Python program is shallowly embedded below:
pure functions of the source become Lean functions over a JSON-like
value type, raised Python exceptions become `Except` errors, and the
infinite poll loop of `main` becomes an explicitly iterated cycle
function driven by the outcomes of its two external collaborators
(the HTTP fetch and the Telegram send).
-/

namespace HomeworkBot

/-- Python/JSON values as they appear in API responses: `None`, integers,
strings, lists and string-keyed dicts (modelled as association lists,
first binding wins on lookup, as the program never builds duplicates). -/
inductive JValue where
  | jnull : JValue
  | jnum : Int → JValue
  | jstr : String → JValue
  | jlist : List JValue → JValue
  | jdict : List (String × JValue) → JValue

/-- Python dict lookup `d[k]` / `d.get(k)` on an association list. -/
def jlookup : List (String × JValue) → String → Option JValue
  | [], _ => none
  | (k, v) :: rest, key => if k = key then some v else jlookup rest key

/-- Python truthiness of a value (`if not x`): `None`, `0`, the empty
string, the empty list and the empty dict are falsy. -/
def truthy : JValue → Bool
  | .jnull => false
  | .jnum n => n != 0
  | .jstr s => s != ""
  | .jlist xs => !xs.isEmpty
  | .jdict kvs => !kvs.isEmpty

/-- Python `str()` of a value, used by the f-string of `parse_status`.
Scalars are rendered exactly as Python renders them; every theorem below
applies it to string values only, so the container cases render a fixed
placeholder rather than a full recursive `repr`. -/
def pyStr : JValue → String
  | .jnull => "None"
  | .jnum n => toString n
  | .jstr s => s
  | .jlist _ => "[...]"
  | .jdict _ => "..."

/-- The exceptions the program raises or catches, by Python class.
`emptyResponnseFopmAPI` is `exceptions.EmptyResponnseFopmAPI` (sic), the
custom class from the repository's `exceptions` module; `homework.py`
raises it in `check_response` and tests it with `isinstance` in `main`,
so it is modelled as its own distinct error constructor. -/
inductive PyError where
  | typeError : String → PyError
  | keyError : String → PyError
  | valueError : String → PyError
  | connectionError : String → PyError
  | unboundLocalError : String → PyError
  | emptyResponnseFopmAPI : String → PyError
deriving DecidableEq

/-- Python `str(error)` as used by the f-string
`f'Сбой в работе программы: \x7berror\x7d'` in `main`'s handler.
`KeyError` renders its argument in quotes; `UnboundLocalError` carries
the interpreter's message for reading an unassigned local. -/
def errMsg : PyError → String
  | .typeError m => m
  | .keyError m => "\x27" ++ m ++ "\x27"
  | .valueError m => m
  | .connectionError m => m
  | .unboundLocalError v =>
      "local variable \x27" ++ v ++ "\x27 referenced before assignment"
  | .emptyResponnseFopmAPI m => m

/-- The verdict table `HOMEWORK_VERDICTS` (homework.py lines 23-27). -/
def HOMEWORK_VERDICTS : List (String × String) :=
  [("approved", "Работа проверена: ревьюеру всё понравилось. Ура!"),
   ("reviewing", "Работа взята на проверку ревьюером."),
   ("rejected", "Работа проверена: у ревьюера есть замечания.")]

/-- Lookup in a string-valued dict (used for `HOMEWORK_VERDICTS` and for
`dict_messages` in `main`). -/
def slookup : List (String × String) → String → Option String
  | [], _ => none
  | (k, v) :: rest, key => if k = key then some v else slookup rest key

/-- Python `key in d` on a string-valued dict: membership tests KEYS. -/
def hasKeyStr : List (String × String) → String → Bool
  | [], _ => false
  | (k, _) :: rest, key => k == key || hasKeyStr rest key

/-- Python `d[k] = v` on a string-valued dict. -/
def setKey : List (String × String) → String → String → List (String × String)
  | [], k, v => [(k, v)]
  | (k0, v0) :: rest, k, v =>
      if k0 = k then (k, v) :: rest else (k0, v0) :: setKey rest k v

/-- The three environment values read at module load
(`PRACTICUM_TOKEN`, `TELEGRAM_TOKEN`, `TELEGRAM_CHAT_ID`); `none` models
an unset variable.  The environment is constant for the process, so the
re-read `os.getenv(token_name)` inside `check_tokens` returns the same
value as the module-level read. -/
structure Env where
  practicum_token : Option String
  telegram_token : Option String
  telegram_chat_id : Option String
deriving DecidableEq

/-- Truthiness of `os.getenv(...)`: unset (`None`) or empty is falsy. -/
def envTruthy : Option String → Bool
  | none => false
  | some s => s != ""

/-- The name of the first token that fails `check_tokens`' test
`not token_value or token_value != os.getenv(token_name)` (the second
disjunct is always false for a constant environment), in the order the
source iterates the `tokens` tuple; the loop breaks at the first hit. -/
def tokenMissingName (env : Env) : Option String :=
  if !envTruthy env.practicum_token then some "PRACTICUM_TOKEN"
  else if !envTruthy env.telegram_token then some "TELEGRAM_TOKEN"
  else if !envTruthy env.telegram_chat_id then some "TELEGRAM_CHAT_ID"
  else none

/-- `check_tokens` (homework.py lines 47-67): raises `ValueError` naming
the first missing variable, otherwise returns `True`. -/
def check_tokens (env : Env) : Except PyError Bool :=
  match tokenMissingName env with
  | some name =>
      .error (.valueError
        ("Отсутствует или не верная переменная окружения: " ++ name))
  | none => .ok true

/-- `check_response` (homework.py lines 120-132): `TypeError` unless the
response is a dict, `EmptyResponnseFopmAPI` if the key `homeworks` is
absent, `TypeError` if its value is not a list; otherwise returns the
list.  The key `current_date` is never inspected. -/
def check_response (response : JValue) : Except PyError (List JValue) :=
  match response with
  | .jdict kvs =>
    match jlookup kvs "homeworks" with
    | none =>
        .error (.emptyResponnseFopmAPI
          "Ответ от API не содержит ключ \"homeworks\".")
    | some homeworks =>
      match homeworks with
      | .jlist xs => .ok xs
      | _ =>
          .error (.typeError
            "Ответ API-сервера содержит некорректный тип данных.")
  | _ =>
      .error (.typeError
        "Ответ API-сервера содержит некорректный тип данных.")

/-- `parse_status` (homework.py lines 135-151), including the exact
behaviour of its flawed `except KeyError` handler: if `homework_name`
is absent, the handler's first line reads the never-assigned local
`homework_name` and the interpreter raises `UnboundLocalError`; if the
name is present but `status` is absent, the handler tests
`not homework_name` twice (never `homework_status`), so for a truthy
name it falls through and the membership test
`homework_status not in HOMEWORK_VERDICTS` reads the never-assigned
local `homework_status` (`UnboundLocalError`), while for a falsy name it
raises `KeyError` with the message naming `homework_name`.  With both
fields present, a status outside `HOMEWORK_VERDICTS` raises
`ValueError`, an unhashable status raises `TypeError` from the
membership test, and otherwise the rendered message is returned. -/
def parse_status (homework : JValue) : Except PyError String :=
  match homework with
  | .jdict kvs =>
    match jlookup kvs "homework_name" with
    | none => .error (.unboundLocalError "homework_name")
    | some homework_name =>
      match jlookup kvs "status" with
      | none =>
          if truthy homework_name then
            .error (.unboundLocalError "homework_status")
          else
            .error (.keyError "В словаре нет ключа \"homework_name\"")
      | some homework_status =>
        match homework_status with
        | .jstr s =>
          match slookup HOMEWORK_VERDICTS s with
          | none => .error (.valueError "Недопустимый статус домашней работы")
          | some verdict =>
              .ok ("Изменился статус проверки работы \""
                   ++ pyStr homework_name ++ "\". " ++ verdict)
        | .jlist _ => .error (.typeError "unhashable type: \x27list\x27")
        | .jdict _ => .error (.typeError "unhashable type: \x27dict\x27")
        | _ => .error (.valueError "Недопустимый статус домашней работы")
  | .jlist _ =>
      .error (.typeError "list indices must be integers or slices, not str")
  | _ => .error (.typeError "object is not subscriptable")

/-- The mutable state of `main`'s loop: `timestamp` (the watermark sent
as `from_date`; an `int` initially, later whatever
`response.get("current_date")` returned, possibly `None`) and
`dict_messages` (the dict holding the last stored message under the key
`"message"`). -/
structure LoopState where
  timestamp : JValue
  dict_messages : List (String × String)

/-- State at loop entry (homework.py lines 162-163):
`timestamp = 0`, `dict_messages = \x7b\x7d`. -/
def initState : LoopState := ⟨.jnum 0, []⟩

/-- The outcomes of the two external collaborators during one cycle,
supplied as input: `fetchR` is what `get_api_answer(timestamp)` produced
(the parsed response dict, or the `ConnectionError` it raised on
transport/remote failure), and `sendOk` is the boolean `send_message`
returns for the one send the cycle can perform (`False` exactly when the
Telegram client raised `TelegramError`; `send_message` never raises). -/
structure CycleInput where
  fetchR : Except PyError JValue
  sendOk : Bool

/-- Lines 172-179 of `main`: the candidate message — `parse_status` of
the first record when `homeworks` is non-empty (truthy), the literal
`'Нет новых статусов'` otherwise. -/
def candidateOf (homeworks : List JValue) : Except PyError String :=
  match homeworks with
  | hw0 :: _ => parse_status hw0
  | [] => .ok "Нет новых статусов"

/-- Lines 180-182 of `main`, after `dict_messages['message'] = message`
has already run: `if message not in dict_messages` tests the KEYS of
`dict_messages`; when it holds, `send_message(bot, dict_messages['message'])`
is invoked (`KeyError` if the key were absent — it never is here), and on
success `dict_messages['message'] = message` runs again.  Returns the
updated dict and the list of messages passed to `send_message`. -/
def notifyStep (dm : List (String × String)) (message : String)
    (sendOk : Bool) : Except PyError (List (String × String) × List String) :=
  if hasKeyStr dm message then .ok (dm, [])
  else
    match slookup dm "message" with
    | none => .error (.keyError "message")
    | some stored =>
      if sendOk then .ok (setKey dm "message" message, [stored])
      else .ok (dm, [stored])

/-- Line 183 of `main`: `timestamp = response.get("current_date")` —
`None` (here `jnull`) when the key is absent; the response is a dict
whenever this line is reached, since `check_response` succeeded. -/
def currentDateOf (response : JValue) : JValue :=
  match response with
  | .jdict kvs => (jlookup kvs "current_date").getD .jnull
  | _ => .jnull

/-- The `try` block of one loop iteration (homework.py lines 166-183):
fetch, validate, build the candidate message, store it in
`dict_messages`, run the (mis-)deduplicated notify step, then advance
`timestamp` from the response.  Any raised exception aborts the block. -/
def cycleTry (st : LoopState) (inp : CycleInput) :
    Except PyError (LoopState × List String) :=
  match inp.fetchR with
  | .error e => .error e
  | .ok response =>
    match check_response response with
    | .error e => .error e
    | .ok homeworks =>
      match candidateOf homeworks with
      | .error e => .error e
      | .ok message =>
        match notifyStep (setKey st.dict_messages "message" message)
            message inp.sendOk with
        | .error e => .error e
        | .ok (dm2, sends) => .ok (⟨currentDateOf response, dm2⟩, sends)

/-- Result of one full iteration: either the loop continues with a new
state, or the iteration re-raised an exception that escapes the loop. -/
inductive CycleOutcome where
  | next : LoopState → CycleOutcome
  | crash : PyError → CycleOutcome

/-- One full iteration outcome plus the messages passed to
`send_message` during it, in order. -/
structure CycleResult where
  outcome : CycleOutcome
  sends : List String

/-- One full loop iteration including the `except` handler (homework.py
lines 165-198): on success continue with the new state; on
`EmptyResponnseFopmAPI` the handler RE-RAISES it (lines 187-191), which
escapes the loop; on any other exception it sends the failure notice
`'Сбой в работе программы: ...'` best-effort and continues with the
state unchanged.  The unconditional `finally: time.sleep(RETRY_PERIOD)`
has no effect on the modelled state. -/
def runCycle (st : LoopState) (inp : CycleInput) : CycleResult :=
  match cycleTry st inp with
  | .ok (st', sends) => ⟨.next st', sends⟩
  | .error e =>
    match e with
    | .emptyResponnseFopmAPI _ =>
        ⟨.crash (.emptyResponnseFopmAPI "Ответ от API не содержит ключи."),
         []⟩
    | _ => ⟨.next st, ["Сбой в работе программы: " ++ errMsg e]⟩

/-- Iterate `runCycle` over a list of per-cycle collaborator outcomes,
collecting each cycle's `send_message` invocations; stop if an
iteration crashes (`.next st` as final outcome means the loop is still
running in state `st` after consuming all supplied inputs). -/
def runCycles : LoopState → List CycleInput → CycleOutcome × List (List String)
  | st, [] => (.next st, [])
  | st, inp :: rest =>
    match runCycle st inp with
    | ⟨.next st', sends⟩ =>
      let (fin, more) := runCycles st' rest
      (fin, sends :: more)
    | ⟨.crash e, sends⟩ => (.crash e, [sends])

/-- `main` (homework.py lines 154-198): `check_tokens()` runs before the
loop — if it raises, the loop is never entered (its dead `if not
check_tokens()` branch would raise `KeyError`, but `check_tokens` never
returns `False`); otherwise the loop consumes the supplied cycle
inputs. -/
def mainRun (env : Env) (inputs : List CycleInput) :
    Except PyError (CycleOutcome × List (List String)) :=
  match check_tokens env with
  | .error e => .error e
  | .ok b =>
    if b then .ok (runCycles initState inputs)
    else .error (.keyError "Отсутствует переменная окружения,завершение программы")

/-- A response `\x7b'homeworks': [], 'current_date': c\x7d`. -/
def emptyResp (c : Int) : JValue :=
  .jdict [("homeworks", .jlist []), ("current_date", .jnum c)]

/-- A cycle whose fetch returns `r` and whose send succeeds. -/
def okCycle (r : JValue) : CycleInput := ⟨.ok r, true⟩

/-- Writing a key and reading it back yields the written value. -/
theorem slookup_setKey (d : List (String × String)) (k v : String) :
    slookup (setKey d k v) k = some v := by
  induction d with
  | nil => simp [setKey, slookup]
  | cons kv rest ih =>
    obtain ⟨k0, v0⟩ := kv
    by_cases hk : k0 = k
    · simp [setKey, hk, slookup]
    · simp [setKey, hk, slookup, ih]

/-- Inversion of a successful `try` block: the fetch returned a dict
response, validation, candidate construction and the notify step all
succeeded, and the new state's `timestamp` is that response's
`current_date` value (or `None` when absent). -/
theorem cycleTry_ok_inv (st : LoopState) (inp : CycleInput)
    (st' : LoopState) (sends : List String) :
    cycleTry st inp = .ok (st', sends) →
    ∃ kvs homeworks message dm2,
      inp.fetchR = .ok (.jdict kvs) ∧
      check_response (.jdict kvs) = .ok homeworks ∧
      candidateOf homeworks = .ok message ∧
      notifyStep (setKey st.dict_messages "message" message) message
        inp.sendOk = .ok (dm2, sends) ∧
      st' = ⟨(jlookup kvs "current_date").getD .jnull, dm2⟩ := by
  intro h
  unfold cycleTry at h
  split at h
  · exact Except.noConfusion h
  rename_i response hf
  split at h
  · exact Except.noConfusion h
  rename_i homeworks hcr
  split at h
  · exact Except.noConfusion h
  rename_i message hcand
  split at h
  · exact Except.noConfusion h
  rename_i dm2 sends2 hns
  have hdict : ∃ kvs, response = .jdict kvs := by
    cases response with
    | jdict kvs => exact ⟨kvs, rfl⟩
    | jnull => exact Except.noConfusion hcr
    | jnum n => exact Except.noConfusion hcr
    | jstr s => exact Except.noConfusion hcr
    | jlist xs => exact Except.noConfusion hcr
  obtain ⟨kvs, rfl⟩ := hdict
  injection h with h1
  injection h1 with h2 h3
  subst h3
  exact ⟨kvs, homeworks, message, dm2, hf, hcr, hcand, hns, h2.symm⟩

/-- Claim C1, evaluated at the failing input: two consecutive cycles
whose candidate message is the identical literal `'Нет новых статусов'`
invoke `send_message` in BOTH cycles (the dedup test
`message not in dict_messages` inspects the dict's keys, whose only key
is ever `"message"`), contradicting "send is invoked at most once per
run of identical candidates and skipped when the candidate equals the
last-notified value". -/
theorem c1_dedup_violated :
    runCycles initState [okCycle (emptyResp 1), okCycle (emptyResp 1)] =
      (.next ⟨.jnum 1, [("message", "Нет новых статусов")]⟩,
       [["Нет новых статусов"], ["Нет новых статусов"]]) := rfl

/-- Claim C2 counterexample: a single cycle whose fetched response lacks
the `homeworks` key raises `EmptyResponnseFopmAPI`, which `main`'s
handler re-raises, so the loop terminates (outcome `.crash`) — the
process does NOT survive this recoverable structural error. -/
theorem c2_counterexample_missing_entities_crashes :
    runCycle initState ⟨.ok (.jdict [("current_date", .jnum 5)]), true⟩ =
      ⟨.crash (.emptyResponnseFopmAPI "Ответ от API не содержит ключи."),
       []⟩ := rfl

/-- Claim C2 as amended: every error raised inside a cycle OTHER than
`EmptyResponnseFopmAPI` is caught at the loop boundary and converted
into the failure notice `'Сбой в работе программы: ...'` sent
best-effort, with the loop state unchanged and the loop continuing. -/
theorem c2_other_errors_never_terminate (st : LoopState) (inp : CycleInput)
    (e : PyError) :
    cycleTry st inp = .error e →
    (∀ m, e ≠ .emptyResponnseFopmAPI m) →
    runCycle st inp = ⟨.next st, ["Сбой в работе программы: " ++ errMsg e]⟩ := by
  intro h hne
  unfold runCycle
  rw [h]
  cases e with
  | emptyResponnseFopmAPI m => exact absurd rfl (hne m)
  | typeError m => rfl
  | keyError m => rfl
  | valueError m => rfl
  | connectionError m => rfl
  | unboundLocalError m => rfl

/-- Witness for `c2_other_errors_never_terminate` at a concrete
transport failure. -/
theorem c2_other_errors_never_terminate_witness :
    runCycle initState ⟨.error (.connectionError "boom"), true⟩ =
      ⟨.next initState,
       ["Сбой в работе программы: " ++ errMsg (.connectionError "boom")]⟩ :=
  c2_other_errors_never_terminate initState
    ⟨.error (.connectionError "boom"), true⟩ (.connectionError "boom") rfl
    (fun _ hm => PyError.noConfusion hm)

/-- Claim C3 counterexample: in a cycle where `send_message` is invoked
for the candidate (`sends` is non-empty) and returns failure
(`sendOk = false`), the watermark nevertheless advances from `0` to the
response's cursor `7`, and the stored last message changes from unset to
the candidate — both halves of "no advance on delivery failure" fail. -/
theorem c3_counterexample_advance_despite_failure :
    runCycle initState ⟨.ok (emptyResp 7), false⟩ =
      ⟨.next ⟨.jnum 7, [("message", "Нет новых статусов")]⟩,
       ["Нет новых статусов"]⟩ ∧
    initState.timestamp = .jnum 0 ∧
    initState.dict_messages = [] ∧
    (7 : Int) ≠ 0 :=
  ⟨rfl, rfl, rfl, by decide⟩

/-- Claim C3 as amended: when the cycle reaches the notify step and the
single send fails (`sendOk = false`, exactly one message handed to
`send_message`), the new state's watermark is still the response's
`current_date` value, and the stored message under `"message"` already
equals the sent candidate (it was assigned before the send). -/
theorem c3_amended_watermark_advances_on_failed_send
    (st st' : LoopState) (r : JValue) (msg : String) :
    cycleTry st ⟨.ok r, false⟩ = .ok (st', [msg]) →
    st'.timestamp = currentDateOf r ∧
    st'.dict_messages = setKey st.dict_messages "message" msg ∧
    slookup st'.dict_messages "message" = some msg := by
  intro h
  obtain ⟨kvs, homeworks, message, dm2, hf, hcr, hcand, hns, hst⟩ :=
    cycleTry_ok_inv st ⟨.ok r, false⟩ st' [msg] h
  have hf' : Except.ok (ε := PyError) r = .ok (.jdict kvs) := hf
  injection hf' with hr
  subst hr
  subst hst
  have hns' : notifyStep (setKey st.dict_messages "message" message) message
      false = .ok (dm2, [msg]) := hns
  unfold notifyStep at hns'
  split at hns'
  · injection hns' with hp
    injection hp with hdm hlist
    exact List.noConfusion hlist
  · split at hns'
    · exact Except.noConfusion hns'
    · rename_i stored hl
      injection hns' with hp
      injection hp with hdm hlist
      injection hlist with hstored
      rw [slookup_setKey] at hl
      injection hl with hmsg
      have heq : message = msg := hmsg.trans hstored
      refine ⟨rfl, ?_, ?_⟩
      · rw [← hdm, heq]
      · rw [← hdm, heq]
        exact slookup_setKey st.dict_messages "message" msg

/-- Witness for `c3_amended_watermark_advances_on_failed_send` at the
concrete failed-delivery cycle of the counterexample. -/
theorem c3_amended_witness :
    (⟨.jnum 7, [("message", "Нет новых статусов")]⟩ : LoopState).timestamp =
        currentDateOf (emptyResp 7) ∧
    (⟨.jnum 7, [("message", "Нет новых статусов")]⟩ : LoopState).dict_messages =
        setKey initState.dict_messages "message" "Нет новых статусов" ∧
    slookup (⟨.jnum 7, [("message", "Нет новых статусов")]⟩ :
        LoopState).dict_messages "message" = some "Нет новых статусов" :=
  c3_amended_watermark_advances_on_failed_send initState
    ⟨.jnum 7, [("message", "Нет новых статусов")]⟩ (emptyResp 7)
    "Нет новых статусов" rfl

/-- Claim C4 counterexample: two successful cycles whose server-supplied
cursors are `100` and then `50` leave the watermark at `50` after having
been `100` — the watermark DECREASES, because `main` assigns
`response.get("current_date")` verbatim without enforcing monotonicity. -/
theorem c4_counterexample_watermark_decreases :
    (runCycles initState [okCycle (emptyResp 100)]).1 =
      .next ⟨.jnum 100, [("message", "Нет новых статусов")]⟩ ∧
    (runCycles initState
        [okCycle (emptyResp 100), okCycle (emptyResp 50)]).1 =
      .next ⟨.jnum 50, [("message", "Нет новых статусов")]⟩ ∧
    (50 : Int) < 100 :=
  ⟨rfl, rfl, by decide⟩

/-- Claim C4 as amended: any cycle that continues the loop did so in
exactly one of two ways — either it took a caught-failure branch (the
`try` block raised), and then the ENTIRE state, watermark included, is
unchanged; or its `try` block ran to completion (fetch, validation,
resolution and notify step all succeeded), and then the watermark is
set verbatim to the `current_date` value of the dict response the fetch
returned (`None` if absent).  So the watermark is never changed on any
failure branch and never advanced speculatively — but nothing prevents
it from decreasing when the server supplies a smaller cursor. -/
theorem c4_amended_watermark_only_from_cursor
    (st : LoopState) (inp : CycleInput) (st' : LoopState) :
    (runCycle st inp).outcome = .next st' →
    (∃ e, cycleTry st inp = .error e ∧ st' = st) ∨
    (∃ kvs sends, inp.fetchR = .ok (.jdict kvs) ∧
      cycleTry st inp = .ok (st', sends) ∧
      st'.timestamp = (jlookup kvs "current_date").getD .jnull) := by
  intro h
  cases hc : cycleTry st inp with
  | ok p =>
    obtain ⟨st'', sends⟩ := p
    unfold runCycle at h
    rw [hc] at h
    have h2 : CycleOutcome.next st'' = CycleOutcome.next st' := h
    injection h2 with h3
    subst h3
    obtain ⟨kvs, homeworks, message, dm2, hf, hcr, hcand, hns, hst⟩ :=
      cycleTry_ok_inv st inp st'' sends hc
    exact Or.inr ⟨kvs, sends, hf, rfl, by rw [hst]⟩
  | error e =>
    unfold runCycle at h
    rw [hc] at h
    cases e
    case emptyResponnseFopmAPI m =>
      exact CycleOutcome.noConfusion
        (show CycleOutcome.crash _ = CycleOutcome.next st' from h)
    all_goals
      have h2 : CycleOutcome.next st = CycleOutcome.next st' := h
      injection h2 with h3
      subst h3
      exact Or.inl ⟨_, rfl, rfl⟩

/-- Witness for `c4_amended_watermark_only_from_cursor` at a concrete
successful cycle with cursor `100` (the right disjunct holds: the try
block completed and the watermark equals the fetched cursor). -/
theorem c4_amended_witness :
    (∃ e, cycleTry initState (okCycle (emptyResp 100)) = .error e ∧
      (⟨.jnum 100, [("message", "Нет новых статусов")]⟩ : LoopState) =
        initState) ∨
    (∃ kvs sends, (okCycle (emptyResp 100)).fetchR = .ok (.jdict kvs) ∧
      cycleTry initState (okCycle (emptyResp 100)) =
        .ok (⟨.jnum 100, [("message", "Нет новых статусов")]⟩, sends) ∧
      (⟨.jnum 100, [("message", "Нет новых статусов")]⟩ :
          LoopState).timestamp = (jlookup kvs "current_date").getD .jnull) :=
  c4_amended_watermark_only_from_cursor initState (okCycle (emptyResp 100))
    ⟨.jnum 100, [("message", "Нет новых статусов")]⟩ rfl

/-- Claim C5 counterexample: a response that contains `homeworks` but NO
cursor field (`current_date` absent) passes `check_response` — no
structural error is raised for the missing cursor. -/
theorem c5_counterexample_missing_cursor_accepted :
    check_response (.jdict [("homeworks", .jlist [])]) = .ok [] := rfl

/-- Claim C5 as amended: `check_response` on a dict response depends
only on the `homeworks` entry — missing `homeworks` raises
`EmptyResponnseFopmAPI`, a non-list `homeworks` raises `TypeError`, a
list is returned as-is; the cursor field is never checked. -/
theorem c5_amended_validator (kvs : List (String × JValue)) :
    check_response (.jdict kvs) =
      (match jlookup kvs "homeworks" with
       | none =>
           .error (.emptyResponnseFopmAPI
             "Ответ от API не содержит ключ \"homeworks\".")
       | some (.jlist xs) => .ok xs
       | some _ =>
           .error (.typeError
             "Ответ API-сервера содержит некорректный тип данных.")) := by
  cases h : jlookup kvs "homeworks" with
  | none => simp [check_response, h]
  | some v => cases v <;> simp [check_response, h]

/-- Claim C6: with both fields present, `parse_status` returns the fixed
template embedding the entity name and the exact verdict text of the
closed `HOMEWORK_VERDICTS` enumeration for each of `approved`,
`reviewing` and `rejected`, and raises
`ValueError 'Недопустимый статус домашней работы'` for every other
status string. -/
theorem c6_verdict_completeness (n s : String) :
    parse_status (.jdict [("homework_name", .jstr n), ("status", .jstr s)]) =
      (if s = "approved" then
        .ok ("Изменился статус проверки работы \"" ++ n ++ "\". "
             ++ "Работа проверена: ревьюеру всё понравилось. Ура!")
       else if s = "reviewing" then
        .ok ("Изменился статус проверки работы \"" ++ n ++ "\". "
             ++ "Работа взята на проверку ревьюером.")
       else if s = "rejected" then
        .ok ("Изменился статус проверки работы \"" ++ n ++ "\". "
             ++ "Работа проверена: у ревьюера есть замечания.")
       else .error (.valueError "Недопустимый статус домашней работы")) := by
  have hred : parse_status
      (.jdict [("homework_name", .jstr n), ("status", .jstr s)]) =
      (match slookup HOMEWORK_VERDICTS s with
       | none => .error (.valueError "Недопустимый статус домашней работы")
       | some verdict =>
           .ok ("Изменился статус проверки работы \"" ++ n ++ "\". "
                ++ verdict)) := rfl
  rw [hred]
  by_cases h1 : s = "approved"
  · subst h1; rfl
  by_cases h2 : s = "reviewing"
  · subst h2; rfl
  by_cases h3 : s = "rejected"
  · subst h3; rfl
  have hs : slookup HOMEWORK_VERDICTS s = none := by
    simp only [HOMEWORK_VERDICTS, slookup]
    rw [if_neg (fun h => h1 h.symm), if_neg (fun h => h2 h.symm),
        if_neg (fun h => h3 h.symm)]
  rw [hs, if_neg h1, if_neg h2, if_neg h3]

/-- Claim C7, evaluated at the failing input: for the record
`\x7b'homework_name': 'hw2'\x7d` (status absent), `parse_status` raises
`UnboundLocalError` on the local `homework_status` — NOT a
`KeyError`/`DataError` naming the missing status — because the
`except KeyError` handler tests `homework_name` twice and never
`homework_status`; the error IS caught by `main`'s generic handler, so
the cycle ends in the failure-notice path with the state (watermark
included) unchanged. -/
theorem c7_missing_status_unbound_local :
    parse_status (.jdict [("homework_name", .jstr "hw2")]) =
      .error (.unboundLocalError "homework_status") ∧
    runCycle initState
      ⟨.ok (.jdict
        [("homeworks", .jlist [.jdict [("homework_name", .jstr "hw2")]]),
         ("current_date", .jnum 10)]), true⟩ =
      ⟨.next initState,
       ["Сбой в работе программы: local variable \x27homework_status\x27 referenced before assignment"]⟩ :=
  ⟨rfl, rfl⟩

/-- Claim C8, evaluated at the failing input: with an empty `homeworks`
list the candidate is exactly the literal `'Нет новых статусов'` and the
watermark advances to the supplied cursor `50`; but on the second
identical cycle, although the candidate equals the stored last-notified
value, the send is NOT skipped — `send_message` is invoked again. -/
theorem c8_scenario_b :
    runCycles initState [okCycle (emptyResp 50), okCycle (emptyResp 50)] =
      (.next ⟨.jnum 50, [("message", "Нет новых статусов")]⟩,
       [["Нет новых статусов"], ["Нет новых статусов"]]) := rfl

/-- Claim C9: if any of the three required configuration values is
absent (falsy), `main` raises the `ValueError` of `check_tokens` —
naming the offending variable — before the loop body ever runs,
whatever cycle inputs would have followed; this pre-loop `ValueError`
is a distinct signal from the in-loop recoverable handling. -/
theorem c9_config_error_fatal (env : Env) (inputs : List CycleInput) :
    envTruthy env.practicum_token = false ∨
      envTruthy env.telegram_token = false ∨
      envTruthy env.telegram_chat_id = false →
    ∃ name, mainRun env inputs =
      .error (.valueError
        ("Отсутствует или не верная переменная окружения: " ++ name)) := by
  intro h
  obtain ⟨name, hname⟩ : ∃ name, tokenMissingName env = some name := by
    unfold tokenMissingName
    cases h1 : envTruthy env.practicum_token with
    | false => exact ⟨"PRACTICUM_TOKEN", rfl⟩
    | true =>
      cases h2 : envTruthy env.telegram_token with
      | false => exact ⟨"TELEGRAM_TOKEN", rfl⟩
      | true =>
        cases h3 : envTruthy env.telegram_chat_id with
        | false => exact ⟨"TELEGRAM_CHAT_ID", rfl⟩
        | true => rcases h with h | h | h <;> simp_all
  refine ⟨name, ?_⟩
  unfold mainRun check_tokens
  rw [hname]

/-- Witness for `c9_config_error_fatal`: `PRACTICUM_TOKEN` unset. -/
theorem c9_config_error_fatal_witness :
    ∃ name, mainRun ⟨none, some "t", some "c"⟩
        [⟨.error (.connectionError "x"), true⟩] =
      .error (.valueError
        ("Отсутствует или не верная переменная окружения: " ++ name)) :=
  c9_config_error_fatal ⟨none, some "t", some "c"⟩
    [⟨.error (.connectionError "x"), true⟩] (Or.inl rfl)

/-- Claim C10: for every record (dict) lacking the `homework_name` key,
`parse_status` raises `UnboundLocalError` on the local `homework_name` —
its `except KeyError` handler's first test reads that never-assigned
local — rather than a `KeyError` naming the missing field. -/
theorem c10_missing_name_unbound_local (kvs : List (String × JValue)) :
    jlookup kvs "homework_name" = none →
    parse_status (.jdict kvs) = .error (.unboundLocalError "homework_name") := by
  intro h
  simp [parse_status, h]

/-- Witness for `c10_missing_name_unbound_local` at a record carrying
only a status. -/
theorem c10_missing_name_unbound_local_witness :
    parse_status (.jdict [("status", .jstr "approved")]) =
      .error (.unboundLocalError "homework_name") :=
  c10_missing_name_unbound_local [("status", .jstr "approved")] rfl

end HomeworkBot
